import Mathlib

/-!
Shallow embedding of the python-crowd client (src/crowd.py) in Lean 4.

The client (`CrowdServer`) holds connection configuration plus a mutable
requests session (headers); every operation builds one HTTP request, sends
it and maps the response's status code (and sometimes body) to a typed
outcome.  We model:

  * JSON values (`Json`) and Python-dict operations on association lists
    (`dictGet`, `dictSet`, `dictRemove`, `dictUpdate`);
  * the HTTP response handed back by the transport (`Response`), with the
    parsed JSON body supplied by the transport model;
  * the requests issued (`Request`), carrying a snapshot of the session
    headers at send time;
  * each operation as a pure function
    `CrowdServer → args → Response → CrowdServer × List Request × outcome`,
    where the returned `CrowdServer` is the post-state of the session
    (headers may have been mutated) and the list records the requests the
    operation issued before producing its outcome.

Exceptions raised by the Python code become `Except.error` values of the
`CrowdExc` type.
-/

/-- JSON values, as produced by `response.json()` / `json.dumps` payloads. -/
inductive Json where
  | null : Json
  | bool : Bool → Json
  | num : Int → Json
  | str : String → Json
  | arr : List Json → Json
  | obj : List (String × Json) → Json

/-- Python dict lookup `d[k]` on an association list, `none` when absent. -/
def dictGet {α : Type} : List (String × α) → String → Option α
  | [], _ => none
  | (k', v) :: rest, k => if k' = k then some v else dictGet rest k

/-- Python dict assignment `d[k] = v`: replace the value of an existing key,
append the pair when the key is absent. -/
def dictSet {α : Type} : List (String × α) → String → α → List (String × α)
  | [], k, v => [(k, v)]
  | (k', v') :: rest, k, v =>
      if k' = k then (k, v) :: rest else (k', v') :: dictSet rest k v

/-- Python `del d[k]`: drop the entry with the given key. -/
def dictRemove {α : Type} : List (String × α) → String → List (String × α)
  | [], _ => []
  | (k', v) :: rest, k =>
      if k' = k then rest else (k', v) :: dictRemove rest k

/-- Python `k in d`: key membership in a dict. -/
def dictHasKey {α : Type} : List (String × α) → String → Bool
  | [], _ => false
  | (k', _) :: rest, k => k' = k || dictHasKey rest k

/-- Python `d.update(upd)`: assign every pair of `upd` into `d` in order. -/
def dictUpdate {α : Type} (d upd : List (String × α)) : List (String × α) :=
  List.foldl (fun acc kv => dictSet acc kv.1 kv.2) d upd

/-- The exceptions `crowd.py` can raise, plus Python-level errors
(`ValueError` from local validation, `KeyError`/other built-ins). -/
inductive CrowdExc where
  | authFailure : Option String → CrowdExc
  | authDenied : String → CrowdExc
  | userExists : CrowdExc
  | noSuchUser : CrowdExc
  | groupExists : CrowdExc
  | noSuchGroup : CrowdExc
  | crowdError : String → CrowdExc
  | valueError : String → CrowdExc
  | keyError : String → CrowdExc
  | pyExc : String → CrowdExc

/-- The default `CrowdError` message (its constructor with no argument). -/
def crowdErrorDefault : CrowdExc :=
  CrowdExc.crowdError "unexpected response from Crowd server"

/-- Python `j[k]` on a decoded JSON value: `KeyError` when the key is
absent, `TypeError`-style failure when the value is not an object. -/
def Json.getKey : Json → String → Except CrowdExc Json
  | Json.obj fields, k =>
      match dictGet fields k with
      | some v => Except.ok v
      | none => Except.error (CrowdExc.keyError k)
  | _, k => Except.error (CrowdExc.pyExc ("not subscriptable: " ++ k))

/-- An HTTP response as seen by the client: the numeric status code, the
JSON decoding of the body (supplied by the transport model) and the raw
content (used only by the XML endpoint). -/
structure Response where
  status_code : Nat
  body : Json
  content : String

/-- `requests.Response.ok`: `raise_for_status` raises exactly for
`400 <= status_code < 600`, so `ok` is its negation. -/
def Response.ok (r : Response) : Bool :=
  !(400 ≤ r.status_code && r.status_code < 600)

/-- The HTTP verbs the client uses. -/
inductive Verb where
  | GET : Verb
  | POST : Verb
  | DELETE : Verb

/-- One HTTP request issued through the session, with the session headers
snapshotted at send time. -/
structure Request where
  verb : Verb
  url : String
  params : List (String × String)
  reqBody : Option Json
  headers : List (String × String)

/-- `ssl_verify`: either a boolean or a CA-bundle path. -/
inductive SslVerify where
  | flag : Bool → SslVerify
  | caPath : String → SslVerify

/-- The client state: connection configuration (immutable after
construction) plus the session's current headers (mutable: the XML
endpoint updates them). -/
structure CrowdServer where
  crowd_url : String
  app_name : String
  app_pass : String
  ssl_verify : SslVerify
  rest_url : String
  headers : List (String × String)

/-- Python `str.lower` on one character, for the ASCII range the Crowd
server messages use. -/
def charLower (c : Char) : Char :=
  if 'A' ≤ c ∧ c ≤ 'Z' then Char.ofNat (c.toNat + 32) else c

/-- Python `s.lower()` (ASCII). -/
def strLower (s : String) : String :=
  String.mk (s.data.map charLower)

/-- Is `p` a leading segment of `s` (as character lists)? -/
def hasLead : List Char → List Char → Bool
  | [], _ => true
  | _ :: _, [] => false
  | a :: as, b :: bs => a = b && hasLead as bs

/-- Python `s.startswith(p)`. -/
def strStartsWith (s p : String) : Bool :=
  hasLead p.data s.data

/-- Python `k.replace("_", "-")`: every underscore becomes a hyphen (the
only `replace` call the source makes). -/
def underscoreToHyphen (s : String) : String :=
  String.mk (s.data.map (fun c => if c = '_' then '-' else c))

/-- Python `s.rstrip "/"`: remove every trailing `/` character. -/
def rstripSlashes (s : String) : String :=
  String.mk (List.reverse (List.dropWhile (fun c => c = '/') (List.reverse s.data)))

/-- The headers installed by the constructor. -/
def defaultHeaders : List (String × String) :=
  [("Content-type", "application/json"), ("Accept", "application/json")]

/-- The headers `get_group_membership` switches the session to. -/
def xmlHeaders : List (String × String) :=
  [("Content-type", "application/xml"), ("Accept", "application/xml")]

/-- `CrowdServer.__init__`: store the configuration, derive the REST root
from the base URL, create the session with basic auth and JSON headers.
The second component records the HTTP requests issued during
construction: there are none. -/
def CrowdServer.init (crowd_url app_name app_pass : String)
    (ssl_verify : SslVerify) : CrowdServer × List Request :=
  ({ crowd_url := crowd_url
     app_name := app_name
     app_pass := app_pass
     ssl_verify := ssl_verify
     rest_url := rstripSlashes crowd_url ++ "/rest/usermanagement/1"
     headers := defaultHeaders }, [])

/-- Build the `Request` a session call sends: it carries the session's
current headers. -/
def sessReq (c : CrowdServer) (verb : Verb) (url : String)
    (params : List (String × String)) (reqBody : Option Json) : Request :=
  { verb := verb, url := url, params := params, reqBody := reqBody,
    headers := c.headers }

/-- `auth_ping`: GET a deliberately non-existent location; 401 means the
application failed to authenticate, 404 means it passed, anything else is
a `CrowdError`. -/
def auth_ping (c : CrowdServer) (resp : Response) :
    CrowdServer × List Request × Except CrowdExc Bool :=
  (c, [sessReq c Verb.GET (c.rest_url ++ "/non-existent/location") [] none],
    if resp.status_code = 401 then Except.ok false
    else if resp.status_code = 404 then Except.ok true
    else Except.error (CrowdExc.crowdError "unidentified problem"))

/-- `validate_session`: POST the validation factors; any not-`ok` response
raises `CrowdAuthFailure` (no message), otherwise the JSON body is
returned. -/
def validate_session (c : CrowdServer) (token remote : String)
    (resp : Response) : CrowdServer × List Request × Except CrowdExc Json :=
  (c, [sessReq c Verb.POST (c.rest_url ++ "/session/" ++ token)
        [("expand", "user")]
        (some (Json.obj [("validationFactors",
          Json.arr [Json.obj [("name", Json.str "remote_address"),
                              ("value", Json.str remote)]])]))],
    if resp.ok then Except.ok resp.body
    else Except.error (CrowdExc.authFailure none))

/-- `get_user`: 200 returns the attribute mapping, 404 returns the absent
sentinel `None`, anything else raises `CrowdError`. -/
def get_user (c : CrowdServer) (username : String) (resp : Response) :
    CrowdServer × List Request × Except CrowdExc (Option Json) :=
  (c, [sessReq c Verb.GET (c.rest_url ++ "/user")
        [("username", username), ("expand", "attributes")] none],
    if resp.status_code = 200 then Except.ok (some resp.body)
    else if resp.status_code = 404 then Except.ok none
    else Except.error crowdErrorDefault)

/-- `user_exists`: any not-`ok` response returns `None`, otherwise
`True`. -/
def user_exists (c : CrowdServer) (username : String) (resp : Response) :
    CrowdServer × List Request × Option Bool :=
  (c, [sessReq c Verb.GET (c.rest_url ++ "/user")
        [("username", username)] none],
    if resp.ok then some true else none)

/-- `group_exists`: any not-`ok` response returns `None`, otherwise
`True`. -/
def group_exists (c : CrowdServer) (group : String) (resp : Response) :
    CrowdServer × List Request × Option Bool :=
  (c, [sessReq c Verb.GET (c.rest_url ++ "/group")
        [("groupname", group)] none],
    if resp.ok then some true else none)

/-- The result of `xmltodict.parse` on the response content, kept
abstract: no claim inspects the parsed XML tree. -/
structure XmlDoc where
  content : String

/-- `get_group_membership`: updates the session headers to XML (a mutation
of the shared session that the code never undoes), then GETs the
membership dump; 200 parses the XML content, 404 is the absent sentinel,
anything else raises `CrowdError`. -/
def get_group_membership (c : CrowdServer) (resp : Response) :
    CrowdServer × List Request × Except CrowdExc (Option XmlDoc) :=
  let c' : CrowdServer := { c with headers := dictUpdate c.headers xmlHeaders }
  (c', [sessReq c' Verb.GET (c'.rest_url ++ "/group/membership") [] none],
    if resp.status_code = 200 then Except.ok (some ⟨resp.content⟩)
    else if resp.status_code = 404 then Except.ok none
    else Except.error crowdErrorDefault)

/-- The kwargs loop of `add_user`: for each caller-supplied pair, replace
underscores by hyphens in the key; if the result is not a key of the
payload dict, raise `ValueError("invalid argument <key>")`, otherwise
assign the value into the payload. -/
def applyKwargs : List (String × Json) → List (String × Json) →
    Except CrowdExc (List (String × Json))
  | data, [] => Except.ok data
  | data, (k, v) :: rest =>
      if dictHasKey data (underscoreToHyphen k) then
        applyKwargs (dictSet data (underscoreToHyphen k) v) rest
      else
        Except.error (CrowdExc.valueError ("invalid argument " ++ k))

/-- The payload dict literal of `add_user`, built once `email` and
`password` have been looked up in the kwargs. -/
def userPayloadBase (username : String) (email pw : Json) :
    List (String × Json) :=
  [("name", Json.str username),
   ("first-name", Json.str username),
   ("last-name", Json.str username),
   ("display-name", Json.str username),
   ("email", email),
   ("password", Json.obj [("value", pw)]),
   ("active", Json.bool true)]

/-- `add_user`: look up the mandatory `email` then `password` kwargs (a
`KeyError` becomes `ValueError("missing <key>")`, in the dict literal's
evaluation order), delete `password` from the kwargs, run the kwargs loop,
and only then POST the payload.  201 succeeds, 400 raises
`CrowdUserExists`, 403 raises `CrowdAuthDenied`, anything else
`CrowdError`.  Local validation failures issue no request. -/
def add_user (c : CrowdServer) (username : String)
    (kwargs : List (String × Json)) (resp : Response) :
    CrowdServer × List Request × Except CrowdExc Bool :=
  match dictGet kwargs "email" with
  | none => (c, [], Except.error (CrowdExc.valueError "missing email"))
  | some email =>
    match dictGet kwargs "password" with
    | none => (c, [], Except.error (CrowdExc.valueError "missing password"))
    | some pw =>
      match applyKwargs (userPayloadBase username email pw)
              (dictRemove kwargs "password") with
      | Except.error e => (c, [], Except.error e)
      | Except.ok data =>
        (c, [sessReq c Verb.POST (c.rest_url ++ "/user") []
              (some (Json.obj data))],
          if resp.status_code = 201 then Except.ok true
          else if resp.status_code = 400 then
            Except.error CrowdExc.userExists
          else if resp.status_code = 403 then
            Except.error (CrowdExc.authDenied
              "application is not allowed to create a new user")
          else Except.error crowdErrorDefault)

/-- The value the kwargs loop would leave at payload key `target`: the
last caller-supplied value whose key maps to `target` after the
underscore-to-hyphen replacement, `none` when the caller supplied no such
key. -/
def suppliedVal (target : String) : List (String × Json) → Option Json
  | [] => none
  | (k, v) :: rest =>
      match suppliedVal target rest with
      | some w => some w
      | none => if underscoreToHyphen k = target then some v else none

/-- `remove_user_from_group`: 204 succeeds; on 404 the body's `message`
field is lowercased and its leading word decides between
`CrowdNoSuchGroup`, `CrowdNoSuchUser` and a generic `CrowdError`; any
other status raises `CrowdError`. -/
def remove_user_from_group (c : CrowdServer) (username groupname : String)
    (resp : Response) : CrowdServer × List Request × Except CrowdExc Bool :=
  (c, [sessReq c Verb.DELETE (c.rest_url ++ "/group/user/direct")
        [("groupname", groupname), ("username", username)] none],
    if resp.status_code = 204 then Except.ok true
    else if resp.status_code = 404 then
      match resp.body.getKey "message" with
      | Except.error e => Except.error e
      | Except.ok (Json.str m) =>
          if strStartsWith (strLower m) "group" then
            Except.error CrowdExc.noSuchGroup
          else if strStartsWith (strLower m) "user" then
            Except.error CrowdExc.noSuchUser
          else Except.error (CrowdExc.crowdError "unknown server response")
      | Except.ok _ => Except.error (CrowdExc.pyExc "lower")
    else Except.error crowdErrorDefault)

/-- The payload keys of `add_user` (independent of the call arguments):
these are exactly the keys the kwargs loop accepts after the
underscore-to-hyphen replacement. -/
def allowedKey (k : String) : Bool :=
  dictHasKey (userPayloadBase "" Json.null Json.null) k

/-! ### Dictionary lemmas -/

theorem dictGet_dictSet_self {α : Type} (d : List (String × α)) (k : String)
    (v : α) : dictGet (dictSet d k v) k = some v := by
  induction d with
  | nil => simp [dictSet, dictGet]
  | cons kv rest ih =>
      obtain ⟨k', v'⟩ := kv
      by_cases h : k' = k
      · simp [dictSet, h, dictGet]
      · simp [dictSet, h, dictGet, ih]

theorem dictGet_dictSet_ne {α : Type} (d : List (String × α)) (k k' : String)
    (v : α) (h : k' ≠ k) :
    dictGet (dictSet d k v) k' = dictGet d k' := by
  induction d with
  | nil => simp [dictSet, dictGet, Ne.symm h]
  | cons kv rest ih =>
      obtain ⟨ka, va⟩ := kv
      by_cases hk : ka = k
      · subst hk
        simp [dictSet, dictGet, Ne.symm h]
      · simp only [dictSet, if_neg hk]
        by_cases ha : ka = k'
        · simp [dictGet, ha]
        · simp [dictGet, ha, ih]

theorem dictHasKey_dictSet {α : Type} (d : List (String × α)) (k : String)
    (v : α) (hk : dictHasKey d k = true) (k' : String) :
    dictHasKey (dictSet d k v) k' = dictHasKey d k' := by
  induction d with
  | nil => simp [dictHasKey] at hk
  | cons kv rest ih =>
      obtain ⟨ka, va⟩ := kv
      by_cases ha : ka = k
      · subst ha
        simp [dictSet, dictHasKey]
      · simp only [dictHasKey, ha] at hk
        simp only [dictSet, if_neg ha, dictHasKey]
        rw [ih (by simpa using hk)]

theorem dictHasKey_userPayloadBase (u : String) (e p : Json) (k : String) :
    dictHasKey (userPayloadBase u e p) k = allowedKey k := rfl

/-- After a successful kwargs loop, the value at any payload key is the
last caller-supplied value mapping to it, or the initial payload value
when the caller supplied none. -/
theorem applyKwargs_get (l : List (String × Json)) :
    ∀ data d', applyKwargs data l = Except.ok d' → ∀ target,
      dictGet d' target =
        match suppliedVal target l with
        | some w => some w
        | none => dictGet data target := by
  induction l with
  | nil =>
      intro data d' h target
      simp only [applyKwargs] at h
      cases h
      simp [suppliedVal]
  | cons kv rest ih =>
      intro data d' h target
      obtain ⟨k, v⟩ := kv
      simp only [applyKwargs] at h
      by_cases hk : dictHasKey data (underscoreToHyphen k) = true
      · rw [if_pos hk] at h
        rw [ih _ _ h target]
        simp only [suppliedVal]
        cases hs : suppliedVal target rest with
        | some w => simp
        | none =>
            by_cases ht : underscoreToHyphen k = target
            · subst ht
              simp [dictGet_dictSet_self]
            · simp [ht, dictGet_dictSet_ne _ _ _ _ (Ne.symm ht)]
      · rw [if_neg hk] at h
        cases h

/-- If any kwargs key maps outside the payload keys, the kwargs loop
fails with `ValueError("invalid argument <key>")` for some such key. -/
theorem applyKwargs_err (l : List (String × Json)) :
    ∀ data, (∀ k', dictHasKey data k' = allowedKey k') →
      (∃ kv ∈ l, allowedKey (underscoreToHyphen kv.1) = false) →
      ∃ k', allowedKey (underscoreToHyphen k') = false ∧
        applyKwargs data l =
          Except.error (CrowdExc.valueError ("invalid argument " ++ k')) := by
  induction l with
  | nil =>
      intro data _ hbad
      obtain ⟨kv, hmem, _⟩ := hbad
      cases hmem
  | cons kv rest ih =>
      intro data hkeys hbad
      obtain ⟨k, v⟩ := kv
      by_cases hk : allowedKey (underscoreToHyphen k) = true
      · have hmem : dictHasKey data (underscoreToHyphen k) = true := by
          rw [hkeys]; exact hk
        have hbad2 : ∃ kv ∈ rest, allowedKey (underscoreToHyphen kv.1) = false := by
          obtain ⟨kv2, hmem2, hb⟩ := hbad
          rcases List.mem_cons.mp hmem2 with heq | hrest
          · subst heq
            rw [hk] at hb
            cases hb
          · exact ⟨kv2, hrest, hb⟩
        have hkeys2 : ∀ k', dictHasKey (dictSet data (underscoreToHyphen k) v) k'
            = allowedKey k' := by
          intro k'
          rw [dictHasKey_dictSet data _ v hmem k', hkeys]
        obtain ⟨k', hb, heq⟩ := ih _ hkeys2 hbad2
        refine ⟨k', hb, ?_⟩
        simp only [applyKwargs, if_pos hmem]
        exact heq
      · refine ⟨k, by simpa using hk, ?_⟩
        simp only [applyKwargs]
        rw [if_neg]
        rw [hkeys]
        simpa using hk

/-- The first kwargs key the `add_user` kwargs loop rejects: the first
whose underscore-to-hyphen form is not a payload key. -/
def firstBadKey : List (String × Json) → Option String
  | [] => none
  | (k, _) :: rest =>
      if allowedKey (underscoreToHyphen k) then firstBadKey rest else some k

theorem firstBadKey_bad (l : List (String × Json)) (k : String)
    (h : firstBadKey l = some k) :
    allowedKey (underscoreToHyphen k) = false := by
  induction l with
  | nil => cases h
  | cons kv rest ih =>
      obtain ⟨k0, v0⟩ := kv
      by_cases hk : allowedKey (underscoreToHyphen k0) = true
      · simp only [firstBadKey, if_pos hk] at h
        exact ih h
      · simp only [firstBadKey, if_neg hk] at h
        cases h
        simpa using hk

/-- If some kwargs key maps outside the payload keys, the kwargs loop
fails with `ValueError` naming the first such key. -/
theorem applyKwargs_firstBad (l : List (String × Json)) :
    ∀ data, (∀ k', dictHasKey data k' = allowedKey k') →
      ∀ k, firstBadKey l = some k →
        applyKwargs data l =
          Except.error (CrowdExc.valueError ("invalid argument " ++ k)) := by
  induction l with
  | nil => intro data _ k h; cases h
  | cons kv rest ih =>
      intro data hkeys k h
      obtain ⟨k0, v0⟩ := kv
      by_cases hk : allowedKey (underscoreToHyphen k0) = true
      · simp only [firstBadKey, if_pos hk] at h
        have hmem : dictHasKey data (underscoreToHyphen k0) = true := by
          rw [hkeys]; exact hk
        have hkeys2 : ∀ k',
            dictHasKey (dictSet data (underscoreToHyphen k0) v0) k'
              = allowedKey k' := by
          intro k'
          rw [dictHasKey_dictSet data _ v0 hmem k', hkeys]
        simp only [applyKwargs, if_pos hmem]
        exact ih _ hkeys2 k h
      · simp only [firstBadKey, if_neg hk] at h
        cases h
        simp only [applyKwargs]
        rw [if_neg]
        rw [hkeys]
        simpa using hk

/-! ### Test fixtures (concrete clients and simulated responses) -/

/-- A client constructed with concrete configuration. -/
def testServer : CrowdServer :=
  (CrowdServer.init "http://crowd.example.com" "app" "secret"
    (SslVerify.flag false)).1

/-- A simulated response carrying only a status code. -/
def respNoBody (n : Nat) : Response :=
  { status_code := n, body := Json.null, content := "" }

/-- A simulated 404 response whose JSON body carries a `message` field. -/
def resp404WithMsg (m : String) : Response :=
  { status_code := 404, body := Json.obj [("message", Json.str m)],
    content := "" }

/-! ### Claim theorems -/

/-- C2: `auth_ping` returns `true` exactly on a 404 response, `false`
exactly on a 401 response, and raises `CrowdError` on any other status
code; no other outcome is possible. -/
theorem auth_ping_status_table (c : CrowdServer) (resp : Response) :
    (resp.status_code = 404 → (auth_ping c resp).2.2 = Except.ok true) ∧
    (resp.status_code = 401 → (auth_ping c resp).2.2 = Except.ok false) ∧
    (resp.status_code ≠ 404 → resp.status_code ≠ 401 →
      (auth_ping c resp).2.2 =
        Except.error (CrowdExc.crowdError "unidentified problem")) := by
  refine ⟨?_, ?_, ?_⟩
  · intro h
    simp [auth_ping, h]
  · intro h
    simp [auth_ping, h]
  · intro h404 h401
    simp [auth_ping, h404, h401]

/-- Witness for C2 at statuses 404, 401 and 500. -/
theorem auth_ping_status_table_witness :
    (auth_ping testServer (respNoBody 404)).2.2 = Except.ok true ∧
    (auth_ping testServer (respNoBody 401)).2.2 = Except.ok false ∧
    (auth_ping testServer (respNoBody 500)).2.2 =
      Except.error (CrowdExc.crowdError "unidentified problem") :=
  ⟨(auth_ping_status_table testServer (respNoBody 404)).1 rfl,
   (auth_ping_status_table testServer (respNoBody 401)).2.1 rfl,
   (auth_ping_status_table testServer (respNoBody 500)).2.2
     (by decide) (by decide)⟩

/-- C7: `get_user` returns the parsed body on 200, the absent sentinel
`none` on 404, and raises the generic `CrowdError` on any other status. -/
theorem get_user_status_table (c : CrowdServer) (username : String)
    (resp : Response) :
    (resp.status_code = 200 →
      (get_user c username resp).2.2 = Except.ok (some resp.body)) ∧
    (resp.status_code = 404 →
      (get_user c username resp).2.2 = Except.ok none) ∧
    (resp.status_code ≠ 200 → resp.status_code ≠ 404 →
      (get_user c username resp).2.2 = Except.error crowdErrorDefault) := by
  refine ⟨?_, ?_, ?_⟩
  · intro h
    simp [get_user, h]
  · intro h
    simp [get_user, h]
  · intro h200 h404
    simp [get_user, h200, h404]

/-- Witness for C7 at statuses 200, 404 and 500. -/
theorem get_user_status_table_witness :
    (get_user testServer "bob" (respNoBody 200)).2.2 =
      Except.ok (some Json.null) ∧
    (get_user testServer "bob" (respNoBody 404)).2.2 = Except.ok none ∧
    (get_user testServer "bob" (respNoBody 500)).2.2 =
      Except.error crowdErrorDefault :=
  ⟨(get_user_status_table testServer "bob" (respNoBody 200)).1 rfl,
   (get_user_status_table testServer "bob" (respNoBody 404)).2.1 rfl,
   (get_user_status_table testServer "bob" (respNoBody 500)).2.2
     (by decide) (by decide)⟩

/-- C5 counterexample: a 302 response is not a 2xx status, yet
`validate_session` returns the parsed body as a success instead of
raising `CrowdAuthFailure` — the code branches on `response.ok`
(status outside 400..599), not on "2xx". -/
theorem validate_session_counterexample :
    (respNoBody 302).status_code = 302 ∧
    (validate_session testServer "tok" "127.0.0.1" (respNoBody 302)).2.2 =
      Except.ok Json.null :=
  ⟨rfl, rfl⟩

/-- C5 (amended): `validate_session` returns the user attributes parsed
from the body whenever the response is `ok` (status outside 400..599,
which includes every 2xx), and raises `CrowdAuthFailure` on every
not-`ok` status (400..599). -/
theorem validate_session_ok_table (c : CrowdServer) (token remote : String)
    (resp : Response) :
    (resp.ok = true →
      (validate_session c token remote resp).2.2 = Except.ok resp.body) ∧
    (resp.ok = false →
      (validate_session c token remote resp).2.2 =
        Except.error (CrowdExc.authFailure none)) := by
  constructor
  · intro h
    simp [validate_session, h]
  · intro h
    simp [validate_session, h]

/-- Witness for C5 (amended) at statuses 200 and 401. -/
theorem validate_session_ok_table_witness :
    (validate_session testServer "tok" "127.0.0.1" (respNoBody 200)).2.2 =
      Except.ok Json.null ∧
    (validate_session testServer "tok" "127.0.0.1" (respNoBody 401)).2.2 =
      Except.error (CrowdExc.authFailure none) :=
  ⟨(validate_session_ok_table testServer "tok" "127.0.0.1"
      (respNoBody 200)).1 rfl,
   (validate_session_ok_table testServer "tok" "127.0.0.1"
      (respNoBody 401)).2 rfl⟩

/-- C1: on a 404 response to `remove_user_from_group` whose body has a
string `message` field, a message whose lowercasing starts with "group"
raises `CrowdNoSuchGroup`, one starting with "user" raises
`CrowdNoSuchUser`, and any other message raises the generic
`CrowdError("unknown server response")`. -/
theorem remove_user_from_group_404_table (c : CrowdServer) (u g : String)
    (resp : Response) (m : String)
    (hst : resp.status_code = 404)
    (hmsg : resp.body.getKey "message" = Except.ok (Json.str m)) :
    (strStartsWith (strLower m) "group" = true →
      (remove_user_from_group c u g resp).2.2 =
        Except.error CrowdExc.noSuchGroup) ∧
    (strStartsWith (strLower m) "group" = false →
     strStartsWith (strLower m) "user" = true →
      (remove_user_from_group c u g resp).2.2 =
        Except.error CrowdExc.noSuchUser) ∧
    (strStartsWith (strLower m) "group" = false →
     strStartsWith (strLower m) "user" = false →
      (remove_user_from_group c u g resp).2.2 =
        Except.error (CrowdExc.crowdError "unknown server response")) := by
  refine ⟨?_, ?_, ?_⟩
  · intro hgrp
    simp [remove_user_from_group, hst, hmsg, hgrp]
  · intro hgrp husr
    simp [remove_user_from_group, hst, hmsg, hgrp, husr]
  · intro hgrp husr
    simp [remove_user_from_group, hst, hmsg, hgrp, husr]

/-- Witness for C1 on three concrete 404 bodies. -/
theorem remove_user_from_group_404_table_witness :
    (remove_user_from_group testServer "u" "g"
        (resp404WithMsg "Group g does not exist")).2.2 =
      Except.error CrowdExc.noSuchGroup ∧
    (remove_user_from_group testServer "u" "g"
        (resp404WithMsg "USER u does not exist")).2.2 =
      Except.error CrowdExc.noSuchUser ∧
    (remove_user_from_group testServer "u" "g"
        (resp404WithMsg "no idea")).2.2 =
      Except.error (CrowdExc.crowdError "unknown server response") :=
  ⟨(remove_user_from_group_404_table testServer "u" "g"
      (resp404WithMsg "Group g does not exist") "Group g does not exist"
      rfl rfl).1 (by decide),
   (remove_user_from_group_404_table testServer "u" "g"
      (resp404WithMsg "USER u does not exist") "USER u does not exist"
      rfl rfl).2.1 (by decide) (by decide),
   (remove_user_from_group_404_table testServer "u" "g"
      (resp404WithMsg "no idea") "no idea"
      rfl rfl).2.2 (by decide) (by decide)⟩

/-- C8: `user_exists` and `group_exists` leave the client state unchanged,
and a second call on the post-state with the same simulated response is
identical to the first call (same state, same request, same result). -/
theorem user_group_exists_idempotent (c : CrowdServer) (u g : String)
    (resp : Response) :
    (user_exists c u resp).1 = c ∧
    user_exists ((user_exists c u resp).1) u resp = user_exists c u resp ∧
    (group_exists c g resp).1 = c ∧
    group_exists ((group_exists c g resp).1) g resp = group_exists c g resp :=
  ⟨rfl, rfl, rfl, rfl⟩

/-- C9: for a non-empty base URL, construction strips trailing slashes and
appends `/rest/usermanagement/1` to form the REST root, stores the
application credentials and TLS-verify policy, installs the default JSON
headers, and issues no request. -/
theorem init_normalizes (url a p : String) (v : SslVerify) (_h : url ≠ "") :
    (CrowdServer.init url a p v).1.rest_url =
        rstripSlashes url ++ "/rest/usermanagement/1" ∧
    (CrowdServer.init url a p v).1.crowd_url = url ∧
    (CrowdServer.init url a p v).1.app_name = a ∧
    (CrowdServer.init url a p v).1.app_pass = p ∧
    (CrowdServer.init url a p v).1.ssl_verify = v ∧
    (CrowdServer.init url a p v).1.headers = defaultHeaders ∧
    (CrowdServer.init url a p v).2 = [] :=
  ⟨rfl, rfl, rfl, rfl, rfl, rfl, rfl⟩

/-- Witness for C9 on a base URL with two trailing slashes. -/
theorem init_normalizes_witness :
    (CrowdServer.init "http://x//" "a" "p" (SslVerify.flag true)).1.rest_url =
        "http://x/rest/usermanagement/1" ∧
    (CrowdServer.init "http://x//" "a" "p" (SslVerify.flag true)).2 = [] := by
  have h := init_normalizes "http://x//" "a" "p" (SslVerify.flag true)
    (by decide)
  refine ⟨?_, h.2.2.2.2.2.2⟩
  rw [h.1]
  decide

/-- C6 (code bug): `get_group_membership` switches the shared session
headers to XML and never restores them, so a subsequent `get_user` on the
same client sends the XML headers instead of the default JSON ones. -/
theorem get_group_membership_header_leak :
    testServer.headers = defaultHeaders ∧
    (get_group_membership testServer (respNoBody 404)).1.headers =
      xmlHeaders ∧
    ((get_user (get_group_membership testServer (respNoBody 404)).1 "bob"
        (respNoBody 200)).2.1.map Request.headers) = [xmlHeaders] :=
  ⟨rfl, rfl, rfl⟩

/-- C3: `add_user` with `email` absent from the kwargs fails locally with
`ValueError("missing email")` and issues no request; with `email` present
but `password` absent it fails with `ValueError("missing password")` and
issues no request. -/
theorem add_user_missing_required (c : CrowdServer) (username : String)
    (kwargs : List (String × Json)) (resp : Response) :
    (dictGet kwargs "email" = none →
      add_user c username kwargs resp =
        (c, [], Except.error (CrowdExc.valueError "missing email"))) ∧
    (∀ e, dictGet kwargs "email" = some e →
      dictGet kwargs "password" = none →
      add_user c username kwargs resp =
        (c, [], Except.error (CrowdExc.valueError "missing password"))) := by
  constructor
  · intro h
    simp [add_user, h]
  · intro e he hp
    simp [add_user, he, hp]

/-- Witness for C3: kwargs without `email`, and kwargs with `email` but
without `password`. -/
theorem add_user_missing_required_witness :
    add_user testServer "u" [("password", Json.str "pw")] (respNoBody 201) =
      (testServer, [], Except.error (CrowdExc.valueError "missing email")) ∧
    add_user testServer "u" [("email", Json.str "u@x")] (respNoBody 201) =
      (testServer, [],
        Except.error (CrowdExc.valueError "missing password")) :=
  ⟨(add_user_missing_required testServer "u" [("password", Json.str "pw")]
      (respNoBody 201)).1 rfl,
   (add_user_missing_required testServer "u" [("email", Json.str "u@x")]
      (respNoBody 201)).2 (Json.str "u@x") rfl rfl⟩

/-- C4 counterexample: the kwarg key `name` is outside the claim's
recognized set (email, password, first_name, last_name, display_name,
active), yet `add_user` accepts it — the call succeeds on a 201 response
and issues a request instead of failing with a local `ValueError`. -/
theorem add_user_unknown_key_counterexample :
    (add_user testServer "u"
        [("email", Json.str "e@x"), ("password", Json.str "pw"),
         ("name", Json.str "other")] (respNoBody 201)).2.2 =
      Except.ok true ∧
    (add_user testServer "u"
        [("email", Json.str "e@x"), ("password", Json.str "pw"),
         ("name", Json.str "other")] (respNoBody 201)).2.1.length = 1 :=
  ⟨rfl, rfl⟩

/-- C4 (amended): the set of kwarg keys `add_user` accepts is exactly
those whose underscore-to-hyphen form is a payload key (`name`,
`first-name`, `last-name`, `display-name`, `email`, `password`,
`active`) — so `name` is also recognized; any call whose kwargs contain a
key outside this set fails with `ValueError` naming the first offending
key, before any request is issued. -/
theorem add_user_unknown_key_rejected (c : CrowdServer) (username : String)
    (kwargs : List (String × Json)) (resp : Response) (e p : Json)
    (k : String)
    (he : dictGet kwargs "email" = some e)
    (hp : dictGet kwargs "password" = some p)
    (hbad : firstBadKey (dictRemove kwargs "password") = some k) :
    allowedKey (underscoreToHyphen k) = false ∧
    add_user c username kwargs resp =
      (c, [],
        Except.error (CrowdExc.valueError ("invalid argument " ++ k))) := by
  have herr := applyKwargs_firstBad (dictRemove kwargs "password")
    (userPayloadBase username e p)
    (dictHasKey_userPayloadBase username e p) k hbad
  exact ⟨firstBadKey_bad _ _ hbad, by simp [add_user, he, hp, herr]⟩

/-- Witness for C4 (amended) on the unrecognized key `colour`. -/
theorem add_user_unknown_key_rejected_witness :
    allowedKey (underscoreToHyphen "colour") = false ∧
    add_user testServer "u"
        [("email", Json.str "e"), ("password", Json.str "p"),
         ("colour", Json.str "red")] (respNoBody 201) =
      (testServer, [],
        Except.error (CrowdExc.valueError ("invalid argument " ++ "colour"))) :=
  add_user_unknown_key_rejected testServer "u"
    [("email", Json.str "e"), ("password", Json.str "p"),
     ("colour", Json.str "red")] (respNoBody 201)
    (Json.str "e") (Json.str "p") "colour" rfl rfl rfl

/-- The kwargs of the C10 witness call. -/
def kwargsW : List (String × Json) :=
  [("email", Json.str "e"), ("password", Json.str "p"),
   ("first_name", Json.str "F"), ("active", Json.bool false)]

/-- The payload the C10 witness call sends. -/
def payloadW : List (String × Json) :=
  [("name", Json.str "u"), ("first-name", Json.str "F"),
   ("last-name", Json.str "u"), ("display-name", Json.str "u"),
   ("email", Json.str "e"),
   ("password", Json.obj [("value", Json.str "p")]),
   ("active", Json.bool false)]

/-- C10: when local validation passes, `add_user` POSTs a payload in
which `first-name`, `last-name` and `display-name` default to the
username and `active` defaults to True whenever the caller supplied no
kwarg mapping to that key, while a caller-supplied value for such a key
overrides the default. -/
theorem add_user_payload_defaults (c : CrowdServer) (username : String)
    (kwargs : List (String × Json)) (resp : Response) (e p : Json)
    (d : List (String × Json))
    (he : dictGet kwargs "email" = some e)
    (hp : dictGet kwargs "password" = some p)
    (hap : applyKwargs (userPayloadBase username e p)
      (dictRemove kwargs "password") = Except.ok d) :
    (add_user c username kwargs resp).2.1 =
      [sessReq c Verb.POST (c.rest_url ++ "/user") [] (some (Json.obj d))] ∧
    (suppliedVal "first-name" (dictRemove kwargs "password") = none →
      dictGet d "first-name" = some (Json.str username)) ∧
    (∀ v, suppliedVal "first-name" (dictRemove kwargs "password") = some v →
      dictGet d "first-name" = some v) ∧
    (suppliedVal "last-name" (dictRemove kwargs "password") = none →
      dictGet d "last-name" = some (Json.str username)) ∧
    (∀ v, suppliedVal "last-name" (dictRemove kwargs "password") = some v →
      dictGet d "last-name" = some v) ∧
    (suppliedVal "display-name" (dictRemove kwargs "password") = none →
      dictGet d "display-name" = some (Json.str username)) ∧
    (∀ v, suppliedVal "display-name" (dictRemove kwargs "password") = some v →
      dictGet d "display-name" = some v) ∧
    (suppliedVal "active" (dictRemove kwargs "password") = none →
      dictGet d "active" = some (Json.bool true)) ∧
    (∀ v, suppliedVal "active" (dictRemove kwargs "password") = some v →
      dictGet d "active" = some v) := by
  refine ⟨?_, ?_, ?_, ?_, ?_, ?_, ?_, ?_, ?_⟩
  · simp [add_user, he, hp, hap]
  · intro h
    rw [applyKwargs_get _ _ _ hap "first-name", h]
    rfl
  · intro v h
    rw [applyKwargs_get _ _ _ hap "first-name", h]
  · intro h
    rw [applyKwargs_get _ _ _ hap "last-name", h]
    rfl
  · intro v h
    rw [applyKwargs_get _ _ _ hap "last-name", h]
  · intro h
    rw [applyKwargs_get _ _ _ hap "display-name", h]
    rfl
  · intro v h
    rw [applyKwargs_get _ _ _ hap "display-name", h]
  · intro h
    rw [applyKwargs_get _ _ _ hap "active", h]
    rfl
  · intro v h
    rw [applyKwargs_get _ _ _ hap "active", h]

/-- Witness for C10: `first_name` and `active` supplied by the caller,
`last-name` left to default. -/
theorem add_user_payload_defaults_witness :
    dictGet payloadW "first-name" = some (Json.str "F") ∧
    dictGet payloadW "last-name" = some (Json.str "u") ∧
    dictGet payloadW "active" = some (Json.bool false) :=
  let h := add_user_payload_defaults testServer "u" kwargsW
    (respNoBody 201) (Json.str "e") (Json.str "p") payloadW rfl rfl rfl
  ⟨h.2.2.1 (Json.str "F") rfl, h.2.2.2.1 rfl,
   h.2.2.2.2.2.2.2.2 (Json.bool false) rfl⟩
